import Mathlib

/-!
Verification of the Duna-AI backend (TypeScript) against its specification.

The development shallowly embeds the code of the repository:
* `utils/obfuscator.ts` (`obfuscateCode`) — JavaScript reversal of a string
  via split, reverse and join, which operates on UTF-16 code units;
* `services/llmService.ts` (`generateContractSource`, the prompt template);
* `services/contractService.ts` (`compileContract`, `compileAndDeployContract`);
* `routes/dunaRoutes.ts` (`POST /duna/:id/generate-contract` handler);
* `services/dunaService.ts` (`getRecords`, `updateRecord`).

JavaScript strings are sequences of UTF-16 code units; where the claims are
about code units versus code points (the obfuscator), strings are modelled as
`List Nat` of code units. Elsewhere, where the distinction is irrelevant,
Lean `String` is used.
-/

namespace DunaAI

/-! ## utils/obfuscator.ts

The function splits a JavaScript string with the empty separator, reverses
the resulting array, and joins it back with the empty separator. Splitting
with the empty separator yields the UTF-16 code units (a surrogate pair is
split into two separate units), so at the code-unit level the function is
exactly list reversal. -/

/-- A JavaScript string, as its sequence of UTF-16 code units. -/
abbrev JsStr := List Nat

/-- The function `obfuscateCode` from `utils/obfuscator.ts`: reversal of the
code-unit sequence via split, reverse and join. -/
def obfuscateCode (code : JsStr) : JsStr :=
  code.reverse

/-- A UTF-16 high (leading) surrogate code unit. -/
def isHighSurrogate (u : Nat) : Bool :=
  decide (0xD800 ≤ u ∧ u ≤ 0xDBFF)

/-- A UTF-16 low (trailing) surrogate code unit. -/
def isLowSurrogate (u : Nat) : Bool :=
  decide (0xDC00 ≤ u ∧ u ≤ 0xDFFF)

/-- Number of Unicode code points encoded by a UTF-16 code-unit sequence, with
JavaScript semantics: a high surrogate immediately followed by a low surrogate
forms one code point; any other unit (including an unpaired surrogate) counts
as one code point on its own. -/
def codePointCount : JsStr → Nat
  | [] => 0
  | [_] => 1
  | u :: v :: rest =>
    if isHighSurrogate u && isLowSurrogate v then
      1 + codePointCount rest
    else
      1 + codePointCount (v :: rest)

/-- A code unit that is not a surrogate (the character it encodes lies in the
Basic Multilingual Plane). -/
def nonSurrogate (u : Nat) : Bool :=
  !(isHighSurrogate u) && !(isLowSurrogate u)

/-! ## models/DunaRecord.ts

The persisted entity. Mongo object ids are modelled as strings; `createdAt`
and `updatedAt` timestamps are irrelevant to every claim and omitted. -/

structure DunaRecord where
  id : String
  name : String
  membershipStatus : String
  complianceLevel : Int
  notes : String
  contractGenerated : Bool
  contractSource : String
  contractAddress : String
  memberId : String
deriving DecidableEq, Repr

/-! ## utils/obfuscator.ts at the code-point level

In the pipeline model, source text is carried as Lean `String`; the code-unit
subtleties of `obfuscateCode` are studied above on `JsStr`. -/

/-- The function `obfuscateCode` applied to a string, at the code-point
level. -/
def obfuscateStr (s : String) : String :=
  ⟨s.data.reverse⟩

/-! ## services/llmService.ts -/

/-- JavaScript whitespace, as matched by the regex class `\s` (restricted to
the ASCII whitespace characters: space, tab, line feed, vertical tab, form
feed, carriage return). -/
def isJsWhitespace (c : Char) : Bool :=
  c = ' ' || c = '\t' || c = '\n' || c = '\r' || c = Char.ofNat 11 || c = Char.ofNat 12

/-- The replacement of every whitespace run by one underscore (the global
regex replace) on a character list: each maximal run of
whitespace is replaced by a single underscore. The boolean argument records
whether the previous character was part of a whitespace run. -/
def replaceWsAux : Bool → List Char → List Char
  | _, [] => []
  | prevWs, c :: cs =>
    if isJsWhitespace c then
      if prevWs then replaceWsAux true cs
      else '_' :: replaceWsAux true cs
    else
      c :: replaceWsAux false cs

/-- The sanitized record name from the prompt template of
`generateContractSource`: the name with every whitespace run replaced by one
underscore. -/
def sanitizeName (s : String) : String :=
  ⟨replaceWsAux false s.data⟩

/-- JavaScript string trim (restricted to ASCII whitespace). -/
def jsTrim (s : String) : String :=
  ⟨((s.data.dropWhile isJsWhitespace).reverse.dropWhile isJsWhitespace).reverse⟩

/-- The prompt template literal of `generateContractSource` in
`services/llmService.ts`, with the four record interpolations and the
sanitized contract name. -/
def buildPrompt (r : DunaRecord) : String :=
  "\n    You are an expert DeFi developer using the LUNA framework. Generate a Solidity smart contract based on the following DUNA record:\n\n    Name: "
  ++ r.name
  ++ "\n    Membership Status: "
  ++ r.membershipStatus
  ++ "\n    Compliance Level: "
  ++ toString r.complianceLevel
  ++ "\n    Notes: "
  ++ r.notes
  ++ "\n\n    Requirements:\n    - Contract name should be \""
  ++ "DUNA_"
  ++ sanitizeName r.name
  ++ "\".\n    - Implement membershipStatus and complianceLevel logic.\n    - Include functions to update complianceLevel.\n    - Ensure compatibility with Solidity 0.8.x.\n    - Provide an ERC-20-like interface if relevant.\n  "

/-- Predicate: `hay` contains `needle` as a contiguous substring. -/
def strContains (hay needle : String) : Prop :=
  ∃ a b, hay.data = a ++ needle.data ++ b

/-- Outcome of the one outbound HTTP call performed by the generation client
(`axios.post` to the LLM endpoint). `networkError` is a request that never
got a response; `httpError` is a non-2xx response (axios throws for both);
`ok` carries the parsed `response.data.choices` array, in which each entry
may or may not have a `text` field, and which may itself be absent from the
body. -/
inductive ApiOutcome where
  | networkError
  | httpError (status : Nat)
  | ok (choices : Option (List (Option String)))
deriving DecidableEq, Repr

/-- The function `generateContractSource` from `services/llmService.ts`, as a function of
the HTTP outcome. Inside the `try` block the code evaluates
`response.data.choices[0].text.trim()` and then obfuscates it; a thrown axios
error, or a `TypeError` from a missing `choices` array, an empty `choices`
array, or an entry without a `text` field, is caught by the `catch` block and
re-thrown as the single error `Failed to generate contract source`. -/
def generateContractSource (outcome : ApiOutcome) : Except String String :=
  match outcome with
  | .networkError => .error "Failed to generate contract source"
  | .httpError _ => .error "Failed to generate contract source"
  | .ok none => .error "Failed to generate contract source"
  | .ok (some []) => .error "Failed to generate contract source"
  | .ok (some (none :: _)) => .error "Failed to generate contract source"
  | .ok (some (some text :: _)) => .ok (obfuscateStr (jsTrim text))

/-! ## services/contractService.ts -/

/-- One entry of the `errors` array of a solc standard-JSON output. -/
structure Diagnostic where
  severity : String
  message : String
deriving DecidableEq, Repr

/-- ABI and bytecode of one compiled contract, as extracted by
`compileContract` (`contract.abi`, `contract.evm.bytecode.object`). Both are
opaque strings here. -/
structure ContractArtifact where
  abi : String
  bytecode : String
deriving DecidableEq, Repr

/-- The solc standard-JSON output consumed by `compileContract`.
`errors = none` models an output without an `errors` key (`output.errors` is
falsy). `contracts = none` models an output whose `contracts` object has no
key `DUNAContract.sol`; `contracts = some l` gives the named contracts under
that key in enumeration order (`Object.keys` order). -/
structure SolcOutput where
  errors : Option (List Diagnostic)
  contracts : Option (List (String × ContractArtifact))
deriving DecidableEq, Repr

/-- Possible results of `compileContract`: the explicit
`throw new Error` with message `Contract compilation failed` (carrying the filtered
error-severity diagnostics that are logged alongside it), an uncaught
`TypeError` from an access on `undefined`, or a successful return. -/
inductive CompileOutcome where
  | failed (errs : List Diagnostic)
  | crash
  | compiled (c : ContractArtifact)
deriving DecidableEq, Repr

/-- The function `compileContract` from `services/contractService.ts`, as a function of the
solc output. If `output.errors` is present, it is filtered to entries with
severity equal to `error`; if any remain, the function logs that full filtered
list and throws `Contract compilation failed`. Otherwise it evaluates
the first entry of the keys of the contracts under the `DUNAContract.sol`
file key and reads the fields of
the first contract: when the file key is absent (`Object.keys` of
`undefined`) or the contract set is empty (`contract` is `undefined` and
`contract.abi` is read), this is an uncaught `TypeError` (`crash`), not an
explicit failure. -/
def compileContract (output : SolcOutput) : CompileOutcome :=
  let errorGate : Option (List Diagnostic) :=
    match output.errors with
    | some diags =>
      let errs := diags.filter (fun d => d.severity = "error")
      if errs.length > 0 then some errs else none
    | none => none
  match errorGate with
  | some errs => .failed errs
  | none =>
    match output.contracts with
    | none => .crash
    | some [] => .crash
    | some ((_, c) :: _) => .compiled c

/-! ## routes/dunaRoutes.ts — POST /duna/:id/generate-contract

The handler's interaction with the outside world is modelled by oracles:
the store (a list of records, `find?` by id modelling `findById`), the
HTTP outcome of the generation call, the solc output of the compilation,
the deployment outcome (`some address`, or `none` when `deployContract`
throws), and whether `record.save()` succeeds. `calls` records which
external stages were actually invoked, in order. -/

inductive CallKind where
  | generation
  | compileCall
  | deployment
deriving DecidableEq, Repr

/-- Responses of the handler, keyed by HTTP status: 404 `DUNA Record not
found`, 400 `Contract already generated`, 500 `Failed to generate and deploy
contract`, and the 200 success body `(contractAddress, contractSource)`. -/
inductive HandlerResponse where
  | notFound
  | alreadyGenerated
  | serverError
  | success (contractAddress contractSource : String)
deriving DecidableEq, Repr

structure HandlerResult where
  store : List DunaRecord
  response : HandlerResponse
  calls : List CallKind
deriving DecidableEq, Repr

/-- The write-back `record.contractGenerated = true; record.contractSource =
contractSource; record.contractAddress = contractAddress; await
record.save()`, as it lands in the store. -/
def writeBack (store : List DunaRecord) (id source address : String) :
    List DunaRecord :=
  store.map fun r =>
    if r.id = id then
      { r with contractGenerated := true
               contractSource := source
               contractAddress := address }
    else r

/-- The `POST /duna/:id/generate-contract` handler of `routes/dunaRoutes.ts`.
Mirrors the source in order: `findById` miss gives 404; a set
`contractGenerated` flag gives 400 before any external call;
`generateContractSource`, then `compileAndDeployContract` (which runs
`compileContract` then `deployContract`), each throwing into the `catch`
block, which returns 500 with the store untouched; on success the three
pipeline fields are written together via `record.save()` (whose own failure
also lands in the `catch` block, leaving the stored record unchanged). -/
def generateContractHandler (store : List DunaRecord) (id : String)
    (genOutcome : ApiOutcome) (solcOutput : SolcOutput)
    (deployOutcome : Option String) (saveOk : Bool) : HandlerResult :=
  match store.find? (fun r => r.id = id) with
  | none => ⟨store, .notFound, []⟩
  | some record =>
    if record.contractGenerated then
      ⟨store, .alreadyGenerated, []⟩
    else
      match generateContractSource genOutcome with
      | .error _ => ⟨store, .serverError, [.generation]⟩
      | .ok contractSource =>
        match compileContract solcOutput with
        | .failed _ => ⟨store, .serverError, [.generation, .compileCall]⟩
        | .crash => ⟨store, .serverError, [.generation, .compileCall]⟩
        | .compiled _ =>
          match deployOutcome with
          | none => ⟨store, .serverError, [.generation, .compileCall, .deployment]⟩
          | some contractAddress =>
            if saveOk then
              ⟨writeBack store id contractSource contractAddress,
               .success contractAddress contractSource,
               [.generation, .compileCall, .deployment]⟩
            else
              ⟨store, .serverError, [.generation, .compileCall, .deployment]⟩

/-! ## services/dunaService.ts -/

/-- A `Partial<DunaRecord>` as passed to `updateRecord`: each field is
optionally present. The `id` and `memberId` fields could be patched too, but
no claim depends on them, so they are omitted from the patch. -/
structure RecordPatch where
  name : Option String
  membershipStatus : Option String
  complianceLevel : Option Int
  notes : Option String
  contractGenerated : Option Bool
  contractSource : Option String
  contractAddress : Option String
deriving DecidableEq, Repr

/-- The patch that sets no field. -/
def RecordPatch.empty : RecordPatch :=
  ⟨none, none, none, none, none, none, none⟩

/-- Effect of Mongo `$set` with the present fields of a patch on one
document. -/
def applyPatch (p : RecordPatch) (r : DunaRecord) : DunaRecord :=
  { r with
    name := p.name.getD r.name
    membershipStatus := p.membershipStatus.getD r.membershipStatus
    complianceLevel := p.complianceLevel.getD r.complianceLevel
    notes := p.notes.getD r.notes
    contractGenerated := p.contractGenerated.getD r.contractGenerated
    contractSource := p.contractSource.getD r.contractSource
    contractAddress := p.contractAddress.getD r.contractAddress }

/-- The function `updateRecord` from `services/dunaService.ts`:
`updateOne({ id }, { $set: updatedRecord })` — the first document matching
the id is updated with the present fields of the patch. -/
def updateRecord : List DunaRecord → String → RecordPatch → List DunaRecord
  | [], _, _ => []
  | r :: rest, id, p =>
    if r.id = id then applyPatch p r :: rest
    else r :: updateRecord rest id p

/-- A JavaScript value stored in a document field; `jsUndefined` is the value of
an absent property read. -/
inductive JsValue where
  | str (s : String)
  | num (n : Int)
  | boolean (b : Bool)
  | jsUndefined
deriving DecidableEq, Repr

/-- A Mongo document: an ordered list of named fields. -/
abbrev Doc := List (String × JsValue)

/-- JavaScript property read `d[k]`: the value of the first field named `k`,
or `undefined` when absent. -/
def jsGet (d : Doc) (k : String) : JsValue :=
  match d.find? (fun p => p.1 = k) with
  | some p => p.2
  | none => .jsUndefined

/-- The function `getRecords` from `services/dunaService.ts`: a full find
followed
by `records.map(record => ({ id: record.id, name: record.name, description:
record.description, parameters: record.parameters }))` — each stored document
is projected to an object with exactly those four keys. -/
def getRecords (docs : List Doc) : List Doc :=
  docs.map fun d =>
    [("id", jsGet d "id"),
     ("name", jsGet d "name"),
     ("description", jsGet d "description"),
     ("parameters", jsGet d "parameters")]

/-! ## Pipeline sequences and invariants (for the temporal claim) -/

/-- One invocation of the generate-contract endpoint, together with the
outcomes of its external calls. -/
structure PipeOp where
  id : String
  gen : ApiOutcome
  solc : SolcOutput
  dep : Option String
  saveOk : Bool

/-- Run a sequence of generate-contract invocations against the store,
threading the store through. -/
def runPipeline : List PipeOp → List DunaRecord → List DunaRecord
  | [], store => store
  | op :: rest, store =>
    runPipeline rest
      (generateContractHandler store op.id op.gen op.solc op.dep op.saveOk).store

/-- The record-level invariant from the spec: `contractGenerated` is true
exactly when `contractSource` and `contractAddress` are both non-empty. -/
def recordInv (r : DunaRecord) : Prop :=
  r.contractGenerated = true ↔ (r.contractSource ≠ "" ∧ r.contractAddress ≠ "")

instance (r : DunaRecord) : Decidable (recordInv r) := by
  unfold recordInv; infer_instance

/-- An invocation whose external outcomes can only write non-empty text and
a non-empty address back to the record. -/
def goodOp (op : PipeOp) : Prop :=
  (∀ s, generateContractSource op.gen = Except.ok s → s ≠ "") ∧
  (∀ a, op.dep = some a → a ≠ "")

/-- One record's `contractGenerated` flag does not regress from `a` to
`b`. -/
def flagLe (a b : DunaRecord) : Prop :=
  a.contractGenerated = true → b.contractGenerated = true

/-! ## Helper lemmas -/

theorem codePointCount_eq_length_of_nonSurrogate :
    ∀ l : JsStr, (∀ u ∈ l, nonSurrogate u = true) → codePointCount l = l.length := by
  intro l
  induction l with
  | nil => intro _; rfl
  | cons u t ih =>
    intro h
    cases t with
    | nil => rfl
    | cons v rest =>
      have hu : nonSurrogate u = true := h u (by simp)
      have hnotpair : (isHighSurrogate u && isLowSurrogate v) = false := by
        simp only [nonSurrogate, Bool.and_eq_true, Bool.not_eq_true'] at hu
        simp [hu.1]
      have ht : ∀ w ∈ v :: rest, nonSurrogate w = true := by
        intro w hw; exact h w (by simp [hw])
      simp only [codePointCount, hnotpair, Bool.false_eq_true, if_false]
      rw [ih ht]
      simp [Nat.add_comm]

/-! ## C5 — double application of the source transform restores the input -/

/-- C5: for every non-empty input string (as its UTF-16 code-unit sequence,
multi-byte characters included), applying `obfuscateCode` twice returns the
original string exactly. -/
theorem obfuscateCode_involution (l : JsStr) (h : l ≠ []) :
    obfuscateCode (obfuscateCode l) = l := by
  simp [obfuscateCode]

/-- Witness for C5 at the concrete input `"😀a"`, whose code units are the
surrogate pair `0xD83D 0xDE00` followed by `a`. -/
theorem obfuscateCode_involution_witness :
    ([0xD83D, 0xDE00, 0x61] : JsStr) ≠ [] ∧
      obfuscateCode (obfuscateCode [0xD83D, 0xDE00, 0x61]) = [0xD83D, 0xDE00, 0x61] :=
  ⟨by decide, obfuscateCode_involution [0xD83D, 0xDE00, 0x61] (by decide)⟩

/-! ## C6 — corrected: a single application can change the code-point count

The split-with-empty-separator operates on UTF-16 code units, so reversing splits surrogate
pairs: the two units of `"😀"` come back in the wrong order, turning one code
point into two unpaired surrogates. The claim holds only for input whose
units are all non-surrogates (text confined to the Basic Multilingual
Plane). -/

/-- Counterexample to C6 as stated: the valid one-character input `"😀"`
(code units `0xD83D 0xDE00`, one code point) is mapped by a single
application of `obfuscateCode` to `0xDE00 0xD83D`, which decodes to two code
points (two unpaired surrogates) — the code-point length is not preserved and
the output is corrupted UTF-16. -/
theorem obfuscateCode_codePoint_counterexample :
    codePointCount [0xD83D, 0xDE00] = 1 ∧
      obfuscateCode [0xD83D, 0xDE00] = [0xDE00, 0xD83D] ∧
      codePointCount (obfuscateCode [0xD83D, 0xDE00]) = 2 := by
  refine ⟨rfl, by decide, by decide⟩

/-- C6 (amended): for input text containing no surrogate code units (all
characters in the Basic Multilingual Plane), a single application of
`obfuscateCode` preserves the code-point count, merely permutes the code
units, and introduces no surrogates (hence no encoding corruption). For
general input only the code-unit count is preserved. -/
theorem obfuscateCode_bmp_codePointCount (l : JsStr)
    (h : ∀ u ∈ l, nonSurrogate u = true) :
    codePointCount (obfuscateCode l) = codePointCount l ∧
      (obfuscateCode l).length = l.length ∧
      List.Perm (obfuscateCode l) l ∧
      (∀ u ∈ obfuscateCode l, nonSurrogate u = true) := by
  have hrev : ∀ u ∈ obfuscateCode l, nonSurrogate u = true := by
    intro u hu
    exact h u (by simpa [obfuscateCode] using hu)
  refine ⟨?_, by simp [obfuscateCode], by simp [obfuscateCode], hrev⟩
  rw [codePointCount_eq_length_of_nonSurrogate _ hrev,
    codePointCount_eq_length_of_nonSurrogate _ h]
  simp [obfuscateCode]

/-- Witness for the amended C6 at the concrete BMP input `"abc"`. -/
theorem obfuscateCode_bmp_codePointCount_witness :
    codePointCount (obfuscateCode [0x61, 0x62, 0x63]) = codePointCount [0x61, 0x62, 0x63] :=
  (obfuscateCode_bmp_codePointCount [0x61, 0x62, 0x63] (by decide)).1

/-! ## C3 — the compiler adapter filters diagnostics by severity -/

/-- C3: `compileContract` filters the compiler's diagnostic list to the
entries with `severity = "error"`. When no error-severity entry remains
(warnings only), the diagnostics are ignored and compilation proceeds exactly
as if the output had no `errors` key at all; when at least one error-severity
entry remains, compilation fails carrying the full filtered list of
error-severity diagnostics. -/
theorem compileContract_severity_filter (output : SolcOutput)
    (diags : List Diagnostic) (h : output.errors = some diags) :
    (diags.filter (fun d => d.severity = "error") = [] →
        compileContract output = compileContract ⟨none, output.contracts⟩) ∧
    (∀ e errs, diags.filter (fun d => d.severity = "error") = e :: errs →
        compileContract output = CompileOutcome.failed (e :: errs)) := by
  constructor
  · intro hnil
    simp [compileContract, h, hnil]
  · intro e errs hcons
    simp [compileContract, h, hcons]

/-- Witness for C3: a solc output with two error-severity diagnostics and
one warning fails with exactly the two errors, the warning excluded. -/
theorem compileContract_severity_filter_witness :
    compileContract
        ⟨some [⟨"error", "e1"⟩, ⟨"warning", "w"⟩, ⟨"error", "e2"⟩],
         some [("C", ⟨"abi", "code"⟩)]⟩ =
      CompileOutcome.failed [⟨"error", "e1"⟩, ⟨"error", "e2"⟩] :=
  (compileContract_severity_filter
      ⟨some [⟨"error", "e1"⟩, ⟨"warning", "w"⟩, ⟨"error", "e2"⟩],
       some [("C", ⟨"abi", "code"⟩)]⟩
      [⟨"error", "e1"⟩, ⟨"warning", "w"⟩, ⟨"error", "e2"⟩] rfl).2
    ⟨"error", "e1"⟩ [⟨"error", "e2"⟩] (by decide)

/-! ## C4 — code bug: the zero-contract case is not handled

The spec requires an explicit failure when compilation succeeds with zero
contracts, with the first-contract lookup never reached. In the source the
lookup of the first key of the contract set is unguarded:
with an empty contract set it is reached and the subsequent field access on
`undefined` raises an uncaught `TypeError` instead of an explicit
compilation failure. -/

/-- C4: evaluating `compileContract` at outputs with zero contracts (no
error-severity diagnostics): the contract lookup is reached and crashes;
the result is not an explicit failure for any error list. -/
theorem compileContract_zero_contracts_crash :
    compileContract ⟨none, some []⟩ = CompileOutcome.crash ∧
      compileContract ⟨some [⟨"warning", "w"⟩], some []⟩ = CompileOutcome.crash ∧
      compileContract ⟨none, none⟩ = CompileOutcome.crash ∧
      ∀ errs, compileContract ⟨none, some []⟩ ≠ CompileOutcome.failed errs := by
  refine ⟨by decide, by decide, by decide, ?_⟩
  intro errs h
  simp [compileContract] at h

/-! ## C8 — the generation client surfaces one error kind -/

/-- C8: a network failure, a non-2xx response, or a response body missing the
expected text field (`choices` absent, `choices` empty, or first choice
without `text`) all surface from `generateContractSource` as the single error
`Failed to generate contract source`, never as a success. -/
theorem generateContractSource_single_error_kind (o : ApiOutcome)
    (h : o = ApiOutcome.networkError ∨ (∃ s, o = ApiOutcome.httpError s) ∨
      o = ApiOutcome.ok none ∨ o = ApiOutcome.ok (some []) ∨
      ∃ rest, o = ApiOutcome.ok (some (none :: rest))) :
    generateContractSource o = Except.error "Failed to generate contract source" ∧
      ∀ t, generateContractSource o ≠ Except.ok t := by
  have herr : generateContractSource o = Except.error "Failed to generate contract source" := by
    rcases h with h | ⟨s, h⟩ | h | h | ⟨rest, h⟩ <;> subst h <;> rfl
  exact ⟨herr, fun t hok => by rw [herr] at hok; exact Except.noConfusion hok⟩

/-- Witness for C8 at the concrete outcome of a network failure. -/
theorem generateContractSource_single_error_kind_witness :
    generateContractSource ApiOutcome.networkError =
      Except.error "Failed to generate contract source" :=
  (generateContractSource_single_error_kind ApiOutcome.networkError (Or.inl rfl)).1

/-! ## C9 — the prompt builder embeds the record fields -/

theorem strContains_self (n : String) : strContains n n :=
  ⟨[], [], by simp⟩

theorem strContains_left {y n : String} (x : String) (h : strContains y n) :
    strContains (x ++ y) n := by
  obtain ⟨a, b, hab⟩ := h
  refine ⟨x.data ++ a, b, ?_⟩
  show x.data ++ y.data = _
  rw [hab]
  simp [List.append_assoc]

theorem strContains_right {x n : String} (y : String) (h : strContains x n) :
    strContains (x ++ y) n := by
  obtain ⟨a, b, hab⟩ := h
  refine ⟨a, b ++ y.data, ?_⟩
  show x.data ++ y.data = _
  rw [hab]
  simp [List.append_assoc]

theorem strAppend_assoc (x y z : String) : (x ++ y) ++ z = x ++ (y ++ z) := by
  show String.mk ((x.data ++ y.data) ++ z.data) = String.mk (x.data ++ (y.data ++ z.data))
  rw [List.append_assoc]

theorem strContains_of_append {hay n : String} (m : String)
    (h : strContains hay (m ++ n)) : strContains hay n := by
  obtain ⟨a, b, hab⟩ := h
  refine ⟨a ++ m.data, b, ?_⟩
  rw [hab]
  show a ++ (m.data ++ n.data) ++ b = _
  simp [List.append_assoc]

/-- C9: for every record, the prompt built by `generateContractSource` embeds
the record's name and membership status and requests a contract named
`DUNA_` followed by the record's name with whitespace runs replaced by
underscores; in particular, for a record named `Alpha Co` the prompt contains
the substring `Alpha_Co`. -/
theorem buildPrompt_embeds :
    (∀ r : DunaRecord,
      strContains (buildPrompt r) r.name ∧
        strContains (buildPrompt r) r.membershipStatus ∧
        strContains (buildPrompt r) ("DUNA_" ++ sanitizeName r.name)) ∧
      strContains
        (buildPrompt ⟨"1", "Alpha Co", "active", 3, "", false, "", "", "m1"⟩)
        "Alpha_Co" := by
  have hmain : ∀ r : DunaRecord,
      strContains (buildPrompt r) r.name ∧
        strContains (buildPrompt r) r.membershipStatus ∧
        strContains (buildPrompt r) ("DUNA_" ++ sanitizeName r.name) := by
    intro r
    refine ⟨?_, ?_, ?_⟩
    · unfold buildPrompt
      repeat first
        | (apply strContains_left; exact strContains_self _)
        | apply strContains_right
    · unfold buildPrompt
      repeat first
        | (apply strContains_left; exact strContains_self _)
        | apply strContains_right
    · unfold buildPrompt
      apply strContains_right
      rw [strAppend_assoc _ "DUNA_" (sanitizeName r.name)]
      apply strContains_left
      exact strContains_self _
  refine ⟨hmain, ?_⟩
  have h := (hmain ⟨"1", "Alpha Co", "active", 3, "", false, "", "", "m1"⟩).2.2
  have hsan : sanitizeName ("Alpha Co" : String) = "Alpha_Co" := by decide
  rw [hsan] at h
  exact strContains_of_append "DUNA_" h

/-! ## C10 — the list operation projects to exactly four fields -/

/-- C10: `getRecords` returns one entry per stored document; each returned
entry has exactly the keys `id`, `name`, `description` and `parameters`
(taking their values from the corresponding stored document), and every other
key — including the pipeline-state fields `contractGenerated`,
`contractSource` and `contractAddress` — is absent from every returned
entry. -/
theorem getRecords_projection (docs : List Doc) :
    (getRecords docs).length = docs.length ∧
      (∀ r ∈ getRecords docs,
        r.map Prod.fst = ["id", "name", "description", "parameters"]) ∧
      (∀ r ∈ getRecords docs,
        ∀ k, k ∉ (["id", "name", "description", "parameters"] : List String) →
          r.find? (fun p => p.1 = k) = none) ∧
      (∀ i (h : i < docs.length) (h2 : i < (getRecords docs).length),
        (getRecords docs).get ⟨i, h2⟩ =
          [("id", jsGet (docs.get ⟨i, h⟩) "id"),
           ("name", jsGet (docs.get ⟨i, h⟩) "name"),
           ("description", jsGet (docs.get ⟨i, h⟩) "description"),
           ("parameters", jsGet (docs.get ⟨i, h⟩) "parameters")]) := by
  refine ⟨by simp [getRecords], ?_, ?_, ?_⟩
  · intro r hr
    obtain ⟨d, _, hd⟩ := List.mem_map.mp hr
    rw [← hd]
    rfl
  · intro r hr k hk
    obtain ⟨d, _, hd⟩ := List.mem_map.mp hr
    subst hd
    simp only [List.mem_cons, List.not_mem_nil, or_false, not_or] at hk
    obtain ⟨h1, h2, h3, h4⟩ := hk
    simp [List.find?, Ne.symm h1, Ne.symm h2, Ne.symm h3, Ne.symm h4]
  · intro i h h2
    simp [getRecords]

/-- Witness for C10: a stored document carrying the pipeline-state field
`contractGenerated` is projected to an entry in which that key is absent. -/
theorem getRecords_projection_witness :
    ([("id", JsValue.str "1"), ("name", JsValue.str "n"),
      ("description", JsValue.jsUndefined), ("parameters", JsValue.jsUndefined)] : Doc).find?
        (fun p => p.1 = "contractGenerated") = none :=
  (getRecords_projection
      [[("id", JsValue.str "1"), ("name", JsValue.str "n"),
        ("contractGenerated", JsValue.boolean true)]]).2.2.1
    [("id", JsValue.str "1"), ("name", JsValue.str "n"),
     ("description", JsValue.jsUndefined), ("parameters", JsValue.jsUndefined)]
    (by decide) "contractGenerated" (by decide)

/-! ## Pipeline handler case analysis (shared helper) -/

theorem handler_cases (store : List DunaRecord) (id : String)
    (gen : ApiOutcome) (solc : SolcOutput) (dep : Option String) (saveOk : Bool) :
    ((generateContractHandler store id gen solc dep saveOk).store = store ∧
      ∀ a s, (generateContractHandler store id gen solc dep saveOk).response ≠
        HandlerResponse.success a s) ∨
    (∃ src addr, generateContractSource gen = Except.ok src ∧ dep = some addr ∧
      generateContractHandler store id gen solc dep saveOk =
        ⟨writeBack store id src addr, HandlerResponse.success addr src,
         [CallKind.generation, CallKind.compileCall, CallKind.deployment]⟩) := by
  unfold generateContractHandler
  cases hf : store.find? (fun r => r.id = id) with
  | none => exact Or.inl ⟨rfl, by intro a s h; exact HandlerResponse.noConfusion h⟩
  | some record =>
    dsimp only
    by_cases hflag : record.contractGenerated = true
    · rw [if_pos hflag]
      exact Or.inl ⟨rfl, by intro a s h; exact HandlerResponse.noConfusion h⟩
    · rw [if_neg hflag]
      cases hgen : generateContractSource gen with
      | error e =>
        exact Or.inl ⟨rfl, by intro a s h; exact HandlerResponse.noConfusion h⟩
      | ok src =>
        dsimp only
        cases hcomp : compileContract solc with
        | failed errs =>
          exact Or.inl ⟨rfl, by intro a s h; exact HandlerResponse.noConfusion h⟩
        | crash => exact Or.inl ⟨rfl, by intro a s h; exact HandlerResponse.noConfusion h⟩
        | compiled c =>
          dsimp only
          cases dep with
          | none => exact Or.inl ⟨rfl, by intro a s h; exact HandlerResponse.noConfusion h⟩
          | some addr =>
            dsimp only
            cases saveOk with
            | false =>
              exact Or.inl ⟨rfl, by intro a s h; exact HandlerResponse.noConfusion h⟩
            | true => exact Or.inr ⟨src, addr, rfl, rfl, by rw [if_pos rfl]⟩

/-! ## C1 — the pipeline never partially updates a record -/

/-- C1: for a stored record whose `contractGenerated` flag is false, one
invocation of the generate-contract handler either leaves the store entirely
unchanged and returns a non-success response, or returns success and rewrites
exactly the record with that id, setting `contractGenerated`,
`contractSource` and `contractAddress` together (`writeBack`); no outcome
sets only one or two of the three fields. -/
theorem generateContract_atomic (store : List DunaRecord) (id : String)
    (gen : ApiOutcome) (solc : SolcOutput) (dep : Option String) (saveOk : Bool)
    (r : DunaRecord) (hfind : store.find? (fun q => q.id = id) = some r)
    (hflag : r.contractGenerated = false) :
    ((generateContractHandler store id gen solc dep saveOk).store = store ∧
      ∀ a s, (generateContractHandler store id gen solc dep saveOk).response ≠
        HandlerResponse.success a s) ∨
    (∃ src addr,
      (generateContractHandler store id gen solc dep saveOk).response =
        HandlerResponse.success addr src ∧
      (generateContractHandler store id gen solc dep saveOk).store =
        store.map fun q =>
          if q.id = id then
            { q with contractGenerated := true
                     contractSource := src
                     contractAddress := addr }
          else q) := by
  rcases handler_cases store id gen solc dep saveOk with h | ⟨src, addr, _, _, h⟩
  · exact Or.inl h
  · exact Or.inr ⟨src, addr, by rw [h], by rw [h]; rfl⟩

/-- Witness for C1 at a concrete one-record store with the flag false and a
failing generation call: the store is unchanged and the response is not a
success. -/
theorem generateContract_atomic_witness :
    ((generateContractHandler
        [⟨"r1", "N", "active", 0, "", false, "", "", "m"⟩] "r1"
        ApiOutcome.networkError ⟨none, none⟩ none true).store =
      [⟨"r1", "N", "active", 0, "", false, "", "", "m"⟩] ∧
      ∀ a s, (generateContractHandler
        [⟨"r1", "N", "active", 0, "", false, "", "", "m"⟩] "r1"
        ApiOutcome.networkError ⟨none, none⟩ none true).response ≠
          HandlerResponse.success a s) ∨
    (∃ src addr,
      (generateContractHandler
        [⟨"r1", "N", "active", 0, "", false, "", "", "m"⟩] "r1"
        ApiOutcome.networkError ⟨none, none⟩ none true).response =
          HandlerResponse.success addr src ∧
      (generateContractHandler
        [⟨"r1", "N", "active", 0, "", false, "", "", "m"⟩] "r1"
        ApiOutcome.networkError ⟨none, none⟩ none true).store =
        [⟨"r1", "N", "active", 0, "", false, "", "", "m"⟩].map fun q =>
          if q.id = "r1" then
            { q with contractGenerated := true
                     contractSource := src
                     contractAddress := addr }
          else q) :=
  generateContract_atomic
    [⟨"r1", "N", "active", 0, "", false, "", "", "m"⟩] "r1"
    ApiOutcome.networkError ⟨none, none⟩ none true
    ⟨"r1", "N", "active", 0, "", false, "", "", "m"⟩ (by decide) rfl

/-! ## C2 — the idempotency guard rejects already-generated records -/

/-- C2: for a stored record whose `contractGenerated` flag is true, the
generate-contract handler answers 400 `Contract already generated`
(`alreadyGenerated`), performs no generation, compilation or deployment call
(`calls = []`), and mutates nothing. -/
theorem generateContract_alreadyGenerated (store : List DunaRecord) (id : String)
    (gen : ApiOutcome) (solc : SolcOutput) (dep : Option String) (saveOk : Bool)
    (r : DunaRecord) (hfind : store.find? (fun q => q.id = id) = some r)
    (hflag : r.contractGenerated = true) :
    generateContractHandler store id gen solc dep saveOk =
      ⟨store, HandlerResponse.alreadyGenerated, []⟩ := by
  unfold generateContractHandler
  rw [hfind]
  simp [hflag]

/-- Witness for C2 at a concrete one-record store with the flag set. -/
theorem generateContract_alreadyGenerated_witness :
    generateContractHandler
        [⟨"r1", "N", "active", 0, "", true, "src", "0xA", "m"⟩] "r1"
        (ApiOutcome.ok (some [some "text"])) ⟨none, some [("C", ⟨"a", "b"⟩)]⟩
        (some "0xB") true =
      ⟨[⟨"r1", "N", "active", 0, "", true, "src", "0xA", "m"⟩],
       HandlerResponse.alreadyGenerated, []⟩ :=
  generateContract_alreadyGenerated
    [⟨"r1", "N", "active", 0, "", true, "src", "0xA", "m"⟩] "r1"
    (ApiOutcome.ok (some [some "text"])) ⟨none, some [("C", ⟨"a", "b"⟩)]⟩
    (some "0xB") true
    ⟨"r1", "N", "active", 0, "", true, "src", "0xA", "m"⟩ (by decide) rfl

/-! ## C7 — corrected: CRUD updates can regress the flag

The generate-contract handler only moves `contractGenerated` from false to
true and writes the three pipeline fields together, but the generic CRUD
update (`updateRecord`, `$set` with an arbitrary partial record) can set
`contractGenerated` back to false, or set it without touching
`contractSource`/`contractAddress`, so the claimed invariant fails for
sequences that include CRUD updates. It holds for pipeline-only sequences. -/

/-- Counterexample to C7 as stated: a record with `contractGenerated = true`
is sent back to `contractGenerated = false` by one CRUD update
(`updateRecord` with `$set { contractGenerated: false }`), leaving a record
that also violates the claimed equivalence with non-empty `contractSource`
and `contractAddress`. -/
theorem contractGenerated_regression_counterexample :
    (⟨"r1", "N", "active", 0, "", true, "src", "0xA", "m"⟩ : DunaRecord).contractGenerated
        = true ∧
      updateRecord [⟨"r1", "N", "active", 0, "", true, "src", "0xA", "m"⟩] "r1"
          ⟨none, none, none, none, some false, none, none⟩ =
        [⟨"r1", "N", "active", 0, "", false, "src", "0xA", "m"⟩] ∧
      (⟨"r1", "N", "active", 0, "", false, "src", "0xA", "m"⟩ : DunaRecord).contractGenerated
        = false ∧
      ¬ recordInv ⟨"r1", "N", "active", 0, "", false, "src", "0xA", "m"⟩ := by
  refine ⟨rfl, by decide, rfl, by decide⟩

theorem forall₂_flagLe_refl (l : List DunaRecord) : List.Forall₂ flagLe l l := by
  induction l with
  | nil => exact List.Forall₂.nil
  | cons x t ih => exact List.Forall₂.cons (fun h => h) ih

theorem forall₂_flagLe_trans {a b c : List DunaRecord}
    (hab : List.Forall₂ flagLe a b) (hbc : List.Forall₂ flagLe b c) :
    List.Forall₂ flagLe a c := by
  induction hab generalizing c with
  | nil => cases hbc; exact List.Forall₂.nil
  | cons hxy _ ih =>
    cases hbc with
    | cons hyz htz => exact List.Forall₂.cons (fun h => hyz (hxy h)) (ih htz)

theorem forall₂_flagLe_map (l : List DunaRecord) (f : DunaRecord → DunaRecord)
    (h : ∀ x ∈ l, flagLe x (f x)) : List.Forall₂ flagLe l (l.map f) := by
  induction l with
  | nil => exact List.Forall₂.nil
  | cons x t ih =>
    exact List.Forall₂.cons (h x (by simp))
      (ih fun y hy => h y (by simp [hy]))

theorem handler_flagLe (store : List DunaRecord) (id : String)
    (gen : ApiOutcome) (solc : SolcOutput) (dep : Option String) (saveOk : Bool) :
    List.Forall₂ flagLe store
      (generateContractHandler store id gen solc dep saveOk).store := by
  rcases handler_cases store id gen solc dep saveOk with h | ⟨src, addr, _, _, h⟩
  · rw [h.1]; exact forall₂_flagLe_refl store
  · rw [h]
    apply forall₂_flagLe_map
    intro q _
    by_cases hq : q.id = id
    · intro _
      simp [writeBack, hq]
    · intro hflag
      simpa [writeBack, hq] using hflag

theorem handler_recordInv (store : List DunaRecord) (id : String)
    (gen : ApiOutcome) (solc : SolcOutput) (dep : Option String) (saveOk : Bool)
    (hinv : ∀ r ∈ store, recordInv r)
    (hg : ∀ s, generateContractSource gen = Except.ok s → s ≠ "")
    (hd : ∀ a, dep = some a → a ≠ "") :
    ∀ r ∈ (generateContractHandler store id gen solc dep saveOk).store,
      recordInv r := by
  rcases handler_cases store id gen solc dep saveOk with h | ⟨src, addr, hgen, hdep, h⟩
  · rw [h.1]; exact hinv
  · rw [h]
    intro r hr
    simp only [writeBack, List.mem_map] at hr
    obtain ⟨q, hq, hfq⟩ := hr
    by_cases hid : q.id = id
    · rw [if_pos hid] at hfq
      subst hfq
      unfold recordInv
      constructor
      · intro _
        exact ⟨hg src hgen, hd addr hdep⟩
      · intro _
        rfl
    · rw [if_neg hid] at hfq
      subst hfq
      exact hinv q hq

theorem runPipeline_flagLe (ops : List PipeOp) (store : List DunaRecord) :
    List.Forall₂ flagLe store (runPipeline ops store) := by
  induction ops generalizing store with
  | nil => exact forall₂_flagLe_refl store
  | cons op rest ih =>
    exact forall₂_flagLe_trans
      (handler_flagLe store op.id op.gen op.solc op.dep op.saveOk)
      (ih _)

theorem runPipeline_recordInv (ops : List PipeOp) (store : List DunaRecord)
    (hinv : ∀ r ∈ store, recordInv r) (hops : ∀ op ∈ ops, goodOp op) :
    ∀ r ∈ runPipeline ops store, recordInv r := by
  induction ops generalizing store with
  | nil => exact hinv
  | cons op rest ih =>
    have hop := hops op (by simp)
    exact ih _
      (handler_recordInv store op.id op.gen op.solc op.dep op.saveOk hinv
        hop.1 hop.2)
      (fun o ho => hops o (by simp [ho]))

/-- C7 (amended): under sequences consisting only of pipeline invocations
(no CRUD updates), starting from a store in which every record satisfies the
invariant, and with external outcomes that can only write non-empty source
text and a non-empty address, every record's `contractGenerated` flag is
monotone — it only transitions false→true, never back (`Forall₂ flagLe`) —
and every record still satisfies `contractGenerated = true` iff
`contractSource` and `contractAddress` are both non-empty. -/
theorem pipelineOnly_flag_monotone_inv (ops : List PipeOp) (store : List DunaRecord)
    (hinv : ∀ r ∈ store, recordInv r) (hops : ∀ op ∈ ops, goodOp op) :
    (∀ r ∈ runPipeline ops store, recordInv r) ∧
      List.Forall₂ flagLe store (runPipeline ops store) :=
  ⟨runPipeline_recordInv ops store hinv hops, runPipeline_flagLe ops store⟩

/-- Witness for the amended C7: one successful pipeline invocation on a
fresh one-record store. -/
theorem pipelineOnly_flag_monotone_inv_witness :
    List.Forall₂ flagLe
      [⟨"r1", "N", "active", 0, "", false, "", "", "m"⟩]
      (runPipeline
        [⟨"r1", ApiOutcome.ok (some [some "text"]),
          ⟨none, some [("C", ⟨"a", "b"⟩)]⟩, some "0xB", true⟩]
        [⟨"r1", "N", "active", 0, "", false, "", "", "m"⟩]) :=
  (pipelineOnly_flag_monotone_inv
      [⟨"r1", ApiOutcome.ok (some [some "text"]),
        ⟨none, some [("C", ⟨"a", "b"⟩)]⟩, some "0xB", true⟩]
      [⟨"r1", "N", "active", 0, "", false, "", "", "m"⟩]
      (by decide)
      (by
        intro op hop
        simp only [List.mem_singleton] at hop
        subst hop
        constructor
        · intro s hs
          simp only [generateContractSource, Except.ok.injEq] at hs
          subst hs
          decide
        · intro a ha
          simp only [Option.some.injEq] at ha
          subst ha
          decide)).2

end DunaAI
